import Mathlib

/-!
Verification of the mobile-agent decision engine (TypeScript SDK).

This file gives a shallow embedding, in Lean 4, of the core functions of the
repository: the LLM response post-processing of `src/llm/LLMProvider.ts`
(tiers 1 to 4), the element-type inference and bounds helpers of
`src/observer/UIObserver.ts`, the grid-overlay coordinate map of
`src/utils/imageProcessor.ts`, and the session controller, dispatcher,
cascade control flow, UI-settle wait and verification-as-wait loop of
`MobileAgent` (file `src/unnamed/part_006`).

JavaScript numbers are modelled as rationals (ℚ) with explicit floors;
`undefined` is modelled with `Option`; thrown exceptions are modelled with
`Except String`; JavaScript truthiness of strings and numbers is modelled
explicitly (`jsStrTruthy`, `jsNumOr`).  Async effects are modelled by
passing the outcome of each external call (device RPC, LLM query) as an
explicit input.  Wall-clock time in the polling loops is modelled
discretely: each loop iteration costs one `pollMs` pause and samples are
instantaneous, so the i-th sample happens at time `i * pollMs` and is taken
iff `i * pollMs < timeoutMs`.
-/

/-- JavaScript truthiness of an optional string: `undefined` and `""` are falsy. -/
def jsStrTruthy : Option String → Bool
  | none => false
  | some s => !(s == "")

/-- JavaScript `a || d` for an optional string `a` and a string default `d`. -/
def jsStrOr (v : Option String) (d : String) : String :=
  match v with
  | some s => if s = "" then d else s
  | none => d

/-- JavaScript `a || d` for an optional number `a` and a number default `d`:
`undefined` and `0` both fall back to the default. -/
def jsNumOr (v : Option ℚ) (d : ℚ) : ℚ :=
  match v with
  | some c => if c = 0 then d else c
  | none => d

/-- JavaScript `a || b` between two optional strings (used for
`parsed.element_id || parsed.elementId`). -/
def jsFieldOr (a b : Option String) : Option String :=
  if jsStrTruthy a then a else b

/-- Axis-aligned element bounds in logical coordinates (`types.ts`). -/
structure BoundsM where
  x1 : Int
  y1 : Int
  x2 : Int
  y2 : Int
deriving DecidableEq

/-- `UIElementType` enum of `types.ts`. -/
inductive UIElementType where
  | button
  | text_view
  | edit_text
  | image_view
  | list_view
  | recycler_view
  | webview
  | dialog
  | toggle
  | spinner
  | unknown
deriving DecidableEq

/-- The fields of `UIElement` (`types.ts`) that the verified operations read. -/
structure UIElementM where
  elementId : String
  text : String := ""
  bounds : Option BoundsM := none
  clickable : Bool := false
  visible : Bool := true
  enabled : Bool := true
deriving DecidableEq

/-- `VisionMethod` enum of `types.ts`. -/
inductive VisionMethod where
  | hierarchy
  | vision_tagging
  | grid_overlay
  | pure_vision
deriving DecidableEq

/-- `LLMActionResponse` (`types.ts`): the decision emitted by one tier. -/
structure LLMActionResponseM where
  action : String
  elementId : Option String := none
  coordinates : Option (Int × Int) := none
  parameters : List (String × String) := []
  reasoning : String := ""
  confidence : Option ℚ := none
  method : VisionMethod
  tagId : Option Nat := none
  gridPosition : Option String := none
  element : String := ""
  location : Option (ℚ × ℚ) := none
deriving DecidableEq

/-! ### UIObserver: element-type inference and centers (`src/observer/UIObserver.ts`) -/

/-- Whether the pattern is a prefix of the character list (helper for the
JavaScript `String.prototype.includes` substring test). -/
def matchesAt : List Char → List Char → Bool
  | [], _ => true
  | _ :: _, [] => false
  | p :: ps, c :: cs => p == c && matchesAt ps cs

/-- Whether the pattern occurs as a contiguous substring of the character list. -/
def hasSub (pat : List Char) : List Char → Bool
  | [] => pat.isEmpty
  | c :: cs => matchesAt pat (c :: cs) || hasSub pat cs

/-- Lower-cased character list of a string (`className.toLowerCase()`). -/
def lowerChars (s : String) : List Char :=
  s.data.map Char.toLower

/-- JavaScript `lower.includes(pat)` on the lower-cased class name. -/
def includesSub (hay : List Char) (pat : String) : Bool :=
  hasSub pat.data hay

/-- `UIObserver.inferElementType`: case-insensitive substring dispatch over the
class name, in source order. -/
def inferElementType (className : String) : UIElementType :=
  let lower := lowerChars className
  if includesSub lower "button" then .button
  else if includesSub lower "edittext" || includesSub lower "edit" then .edit_text
  else if includesSub lower "textview" || includesSub lower "text" then .text_view
  else if includesSub lower "imageview" || includesSub lower "image" then .image_view
  else if includesSub lower "listview" then .list_view
  else if includesSub lower "recyclerview" then .recycler_view
  else if includesSub lower "webview" then .webview
  else if includesSub lower "dialog" || includesSub lower "alertdialog" then .dialog
  else if includesSub lower "toggle" || includesSub lower "switch" then .toggle
  else if includesSub lower "spinner" then .spinner
  else .unknown

/-- Center of integer bounds: `Math.floor((x1 + x2) / 2)` on each axis
(`UIObserver.getElementCenter`, and the same computation inside
`generateActionWithVisionTagging`). -/
def boundsCenter (b : BoundsM) : Int × Int :=
  (Int.fdiv (b.x1 + b.x2) 2, Int.fdiv (b.y1 + b.y2) 2)

/-- `UIObserver.getElementCenter`: `undefined` when the element has no bounds. -/
def getElementCenter (e : UIElementM) : Option (Int × Int) :=
  e.bounds.map boundsCenter

/-! ### Image processor: grid overlay coordinate map (`src/utils/imageProcessor.ts`) -/

/-- Cell-center coordinate in physical screenshot pixels:
`Math.floor((idx + 0.5) * (dim / gridSize))` where `dim` is the physical
width (for columns) or height (for rows). -/
def actualCenter (gridSize dim idx : Nat) : Int :=
  ⌊(((idx : ℚ) + 1/2) * ((dim : ℚ) / (gridSize : ℚ)))⌋

/-- Conversion of a physical coordinate back to logical space:
`Math.floor(physCenter / scaleFactor)` with `scaleFactor = dim / logicalDim`. -/
def toLogical (dim logicalDim : Nat) (physCenter : Int) : Int :=
  ⌊((physCenter : ℚ) / ((dim : ℚ) / (logicalDim : ℚ)))⌋

/-- Logical coordinate of a grid-cell center along one axis, exactly as
`overlayGridLines` computes it. -/
def gridCellCoord (gridSize logicalDim dim idx : Nat) : Int :=
  toLogical dim logicalDim (actualCenter gridSize dim idx)

/-- Grid-cell label `{column}{row}`: `String.fromCharCode(65 + col)` followed by
`(row + 1).toString()`. -/
def gridLabel (col row : Nat) : String :=
  String.mk [Char.ofNat (65 + col)] ++ Nat.repr (row + 1)

/-- The association list of `gridMap` entries produced by `overlayGridLines`
(insertion order: rows outer, columns inner), with values in logical space. -/
def overlayGridMap (gridSize logicalW logicalH actualW actualH : Nat) :
    List (String × Int × Int) :=
  (List.range gridSize).flatMap fun row =>
    (List.range gridSize).map fun col =>
      (gridLabel col row,
       gridCellCoord gridSize logicalW actualW col,
       gridCellCoord gridSize logicalH actualH row)

/-- The labels of the grid map, in insertion order. -/
def gridLabels (gridSize : Nat) : List String :=
  (List.range gridSize).flatMap fun row =>
    (List.range gridSize).map fun col => gridLabel col row

/-! ### LLM provider post-processing (`src/llm/LLMProvider.ts`)

The JSON text produced by the model is parsed by `parseJsonLoose`; here the
outcome of that parse is taken as an input: `none` models a response on which
`parseJsonLoose` throws, `some p` models the parsed object with its optional
fields.  The HTTP query itself happens before the `try` block in every
`generateAction*` method, so a failed query is modelled separately as the
`Except`-level input of the callers (`tryVisionTaggingApproach` etc.). -/

/-- Parsed tier-1 (hierarchy) response fields read by `generateAction`. -/
structure ParsedActionM where
  action : Option String := none
  element_id : Option String := none
  elementId : Option String := none
  parameters : Option (List (String × String)) := none
  reasoning : Option String := none
  confidence : Option ℚ := none
deriving DecidableEq

/-- Parsed tier-2 (vision tagging) response fields.  The source reads
`parsed.tag_id || parsed.tagId`; the camel-case fallback field is folded into
`tag_id` here (a `tag_id` of `0` is falsy in JavaScript and the tag mapping is
1-indexed, so both spellings resolve identically). -/
structure ParsedTagM where
  action : Option String := none
  tag_id : Option Nat := none
  parameters : Option (List (String × String)) := none
  reasoning : Option String := none
  confidence : Option ℚ := none
deriving DecidableEq

/-- Parsed tier-3 (grid overlay) response fields (`grid_position ||
gridPosition` folded into one field, as for tier 2). -/
structure ParsedGridM where
  action : Option String := none
  grid_position : Option String := none
  parameters : Option (List (String × String)) := none
  reasoning : Option String := none
  confidence : Option ℚ := none
deriving DecidableEq

/-- Parsed tier-4 (pure vision) response fields.  `location` is `some (xp, yp)`
exactly when the source-level check `typeof location.x_percent === "number" &&
typeof location.y_percent === "number"` passes (`location || parsed.position`
folded into one field). -/
structure ParsedVisionM where
  action : Option String := none
  element : Option String := none
  location : Option (ℚ × ℚ) := none
  parameters : Option (List (String × String)) := none
  reasoning : Option String := none
  confidence : Option ℚ := none
deriving DecidableEq

/-- The decision returned by every `catch` branch of the `generateAction*`
methods: `action = "error"`, `confidence = 0`, tagged with the tier. -/
def errorDecision (m : VisionMethod) (why : String) : LLMActionResponseM :=
  { action := "error", reasoning := why, confidence := some 0, method := m }

/-- `BaseLLMProvider.generateAction` (tier 1), after the LLM query: maps the
parse outcome to a decision.  On success the LLM-supplied confidence is
propagated unchanged (possibly `undefined`); on parse failure the decision is
`action = "error"` with `confidence = 0`. -/
def generateAction (parsed : Option ParsedActionM) : LLMActionResponseM :=
  match parsed with
  | some p =>
    { action := jsStrOr p.action "error",
      elementId := jsFieldOr p.element_id p.elementId,
      parameters := p.parameters.getD [],
      reasoning := jsStrOr p.reasoning "",
      confidence := p.confidence,
      method := .hierarchy }
  | none => errorDecision .hierarchy "Failed to parse LLM response"

/-- The `tagMapping` lookup `uiState.tagMapping.get(tagId)`: a JavaScript
`Map.get` on a possibly `undefined` key. -/
def tagLookup (mapping : List (Nat × UIElementM)) (key : Option Nat) :
    Option UIElementM :=
  match key with
  | none => none
  | some id => (mapping.find? fun kv => kv.1 = id).map (·.2)

/-- The `gridMap` lookup `uiState.gridMap.get(gridPosition)`. -/
def gridMapLookup (gm : List (String × Int × Int)) (key : Option String) :
    Option (Int × Int) :=
  match key with
  | none => none
  | some s => (gm.find? fun kv => kv.1 = s).map (·.2)

/-- The fields of a `tagged`-mode `UIState` that tier 2 reads. -/
structure TaggedStateM where
  screenshotBase64 : Option String := none
  tagMapping : Option (List (Nat × UIElementM)) := none
deriving DecidableEq

/-- The fields of a `grid`-mode `UIState` that tier 3 reads. -/
structure GridStateM where
  screenshotBase64 : Option String := none
  gridMap : Option (List (String × Int × Int)) := none
deriving DecidableEq

/-- `BaseLLMProvider.generateActionWithVisionTagging` (tier 2).  The guard
`!uiState.screenshotBase64 || !uiState.tagMapping` throws (this is the only
`Except.error` outcome); the `try` block covers the parse and the tag lookup,
and its `catch` converts BOTH failures into an `Except.ok` error decision. -/
def generateActionWithVisionTagging (uiState : TaggedStateM)
    (parsed : Option ParsedTagM) : Except String LLMActionResponseM :=
  match uiState.tagMapping with
  | none => .error "Tagged screenshot not available for vision-based approach"
  | some mapping =>
    if jsStrTruthy uiState.screenshotBase64 then
      match parsed with
      | none => .ok (errorDecision .vision_tagging "Failed to parse vision tagging response")
      | some p =>
        match tagLookup mapping p.tag_id with
        | none =>
          -- the `Tag ID not found in mapping` throw is caught by the same catch
          .ok (errorDecision .vision_tagging "Failed to parse vision tagging response")
        | some el =>
          .ok { action := jsStrOr p.action "error",
                elementId := some el.elementId,
                coordinates := el.bounds.map boundsCenter,
                parameters := p.parameters.getD [],
                reasoning := jsStrOr p.reasoning "",
                confidence := some (jsNumOr p.confidence (4/5)),
                method := .vision_tagging,
                tagId := p.tag_id }
    else .error "Tagged screenshot not available for vision-based approach"

/-- `BaseLLMProvider.generateActionWithGridOverlay` (tier 3), same shape as
tier 2 with the grid map and a default confidence of `0.7`. -/
def generateActionWithGridOverlay (uiState : GridStateM)
    (parsed : Option ParsedGridM) : Except String LLMActionResponseM :=
  match uiState.gridMap with
  | none => .error "Grid overlay screenshot not available"
  | some gm =>
    if jsStrTruthy uiState.screenshotBase64 then
      match parsed with
      | none => .ok (errorDecision .grid_overlay "Failed to parse grid overlay response")
      | some p =>
        match gridMapLookup gm p.grid_position with
        | none =>
          -- the `Grid position not found in grid map` throw is caught in place
          .ok (errorDecision .grid_overlay "Failed to parse grid overlay response")
        | some xy =>
          .ok { action := jsStrOr p.action "error",
                coordinates := some xy,
                parameters := p.parameters.getD [],
                reasoning := jsStrOr p.reasoning "",
                confidence := some (jsNumOr p.confidence (7/10)),
                method := .grid_overlay,
                gridPosition := p.grid_position }
    else .error "Grid overlay screenshot not available"

/-- `BaseLLMProvider.generateActionWithPureVision` (tier 4): converts the
percentage location to logical pixels with `Math.floor(size * percent / 100)`;
all internal failures are caught into an error decision, so this function is
total (the HTTP query that may throw happens in the caller). -/
def generateActionWithPureVision (screenSize : Nat × Nat)
    (parsed : Option ParsedVisionM) : LLMActionResponseM :=
  match parsed with
  | none => errorDecision .pure_vision "Failed to parse pure vision response"
  | some p =>
    match p.location with
    | none =>
      -- `Invalid location format in pure vision response` is caught in place
      errorDecision .pure_vision "Failed to parse pure vision response"
    | some loc =>
      { action := jsStrOr p.action "error",
        coordinates := some (⌊(screenSize.1 : ℚ) * (loc.1 / 100)⌋,
                             ⌊(screenSize.2 : ℚ) * (loc.2 / 100)⌋),
        location := some loc,
        element := jsStrOr p.element "",
        parameters := p.parameters.getD [],
        reasoning := jsStrOr p.reasoning "",
        confidence := some (jsNumOr p.confidence (3/5)),
        method := .pure_vision }

/-! ### MobileAgent: pure-vision gate and the cascading fallback (`part_006`) -/

/-- The outcome of the tier-2 leg of `MobileAgent.execute`: snapshot plus LLM
call, each of which may throw, feeding `generateActionWithVisionTagging`. -/
structure CascadeEnv where
  tier2Snapshot : Except String TaggedStateM
  tier2Llm : Except String (Option ParsedTagM)
  tier3Snapshot : Except String GridStateM
  tier3Llm : Except String (Option ParsedGridM)
  tier4Llm : Except String (Option ParsedVisionM)
  screenSize : Nat × Nat
  minimumConfidence : Option ℚ
  pureVisionEnabled : Bool

/-- `MobileAgent.tryVisionTaggingApproach`: take the tagged snapshot, run the
vision query, post-process.  Snapshot and query failures propagate. -/
def tryVisionTaggingApproach (env : CascadeEnv) : Except String LLMActionResponseM := do
  let st ← env.tier2Snapshot
  let parsed ← env.tier2Llm
  generateActionWithVisionTagging st parsed

/-- `MobileAgent.tryGridOverlayApproach`. -/
def tryGridOverlayApproach (env : CascadeEnv) : Except String LLMActionResponseM := do
  let st ← env.tier3Snapshot
  let parsed ← env.tier3Llm
  generateActionWithGridOverlay st parsed

/-- `MobileAgent.tryPureVisionApproach`: runs tier 4 and then enforces the
minimum-confidence gate `if (confidence && confidence < minConfidence) throw`,
with `minConfidence = pureVisionConfig?.minimumConfidence || 0.5`. -/
def tryPureVisionApproach (minimumConfidence : Option ℚ) (screenSize : Nat × Nat)
    (llm : Except String (Option ParsedVisionM)) : Except String LLMActionResponseM :=
  let minConfidence := jsNumOr minimumConfidence (1/2)
  match llm with
  | .error e => .error e
  | .ok parsed =>
    let d := generateActionWithPureVision screenSize parsed
    match d.confidence with
    | some c =>
      if c ≠ 0 ∧ c < minConfidence then .error "Pure vision confidence too low"
      else .ok d
    | none => .ok d

instance {ε α : Type} [DecidableEq ε] [DecidableEq α] : DecidableEq (Except ε α) :=
  fun a b =>
  match a, b with
  | .ok x, .ok y =>
    match decEq x y with
    | isTrue h => isTrue (by rw [h])
    | isFalse h => isFalse (fun hh => by cases hh; exact h rfl)
  | .error x, .error y =>
    match decEq x y with
    | isTrue h => isTrue (by rw [h])
    | isFalse h => isFalse (fun hh => by cases hh; exact h rfl)
  | .ok _, .error _ => isFalse (fun h => Except.noConfusion h)
  | .error _, .ok _ => isFalse (fun h => Except.noConfusion h)

/-- The decision, the tier that produced it, and which tiers were attempted,
for the vision-fallback portion of `MobileAgent.execute` (the nested
`try`/`catch` over tiers 2, 3 and 4, entered once `shouldFallbackToVision`
returned true and vision is enabled). -/
structure CascadeOutcome where
  result : Except String LLMActionResponseM
  usedMethod : VisionMethod
  tier3Attempted : Bool
  tier4Attempted : Bool
deriving DecidableEq

/-- The tier-2 → tier-3 → tier-4 control flow of `MobileAgent.execute`
(lines 190-246 of `part_006`): a tier is abandoned only when its `try*`
helper THROWS; an `Except.ok` result — including an `action = "error"`
decision — is accepted on the spot. -/
def cascadeVisionFallback (env : CascadeEnv) : CascadeOutcome :=
  match tryVisionTaggingApproach env with
  | .ok r =>
    { result := .ok r, usedMethod := .vision_tagging,
      tier3Attempted := false, tier4Attempted := false }
  | .error _ =>
    match tryGridOverlayApproach env with
    | .ok r =>
      { result := .ok r, usedMethod := .grid_overlay,
        tier3Attempted := true, tier4Attempted := false }
    | .error gridError =>
      if env.pureVisionEnabled then
        { result := tryPureVisionApproach env.minimumConfidence env.screenSize env.tier4Llm,
          usedMethod := .pure_vision, tier3Attempted := true, tier4Attempted := true }
      else
        { result := .error gridError, usedMethod := .grid_overlay,
          tier3Attempted := true, tier4Attempted := false }

/-! ### MobileAgent: dispatcher, session controller (`part_006`) -/

/-- One recorded `ActionStep` (timestamps and screenshots omitted: wall-clock
time and image bytes are not modelled). -/
structure StepM where
  actionType : String
  targetElementId : Option String := none
  success : Bool
  error : Option String := none
deriving DecidableEq

/-- One recorded `VerificationPoint`. -/
structure VerificationPointM where
  name : String
  status : String
  actualValue : Bool
  errorMessage : Option String := none
deriving DecidableEq

/-- The `TestResult` aggregate held by the agent while a session is open. -/
structure TestResultM where
  success : Bool := false
  task : String := ""
  steps : List StepM := []
  verificationResults : List VerificationPointM := []
deriving DecidableEq

/-- The mutable state of a `MobileAgent` instance (driver, LLM and config are
factored out; `currentStateElements` is the element list of `currentState`). -/
structure AgentM where
  testResult : Option TestResultM := none
  actionHistory : List String := []
  currentStateElements : List UIElementM := []
deriving DecidableEq

/-- `MobileAgent.clickElement` coordinate selection: explicit coordinates win;
otherwise the element center; errors exactly as in the source. -/
def clickCoords (element : Option UIElementM) (coordinates : Option (Int × Int))
    (actionName : String) : Except String (Int × Int) :=
  match coordinates with
  | some c => .ok c
  | none =>
    match element with
    | none => .error ("No element or coordinates to " ++ actionName)
    | some e =>
      match getElementCenter e with
      | none => .error "Element has no bounds"
      | some c => .ok c

/-- `MobileAgent.pinch` / `MobileAgent.zoom` target selection:
`coordinates || (element ? getElementCenter(element) : undefined)`. -/
def pinchTarget (element : Option UIElementM) (coordinates : Option (Int × Int))
    (gestureName : String) : Except String (Int × Int) :=
  match coordinates with
  | some c => .ok c
  | none =>
    match element.bind getElementCenter with
    | none => .error ("No target for " ++ gestureName ++ " gesture")
    | some c => .ok c

/-- The gesture `switch` of `MobileAgent.executeAction`: which gestures succeed
and which throw, as a function of the action string, target and coordinates
(the device RPCs themselves are acks and never fail in this model). -/
def dispatchGesture (actionType : String) (element : Option UIElementM)
    (coordinates : Option (Int × Int)) : Except String Unit :=
  if actionType = "click" ∨ actionType = "tap" then
    (clickCoords element coordinates "click").map fun _ => ()
  else if actionType = "type_text" then
    -- typeText first calls clickElement to focus
    (clickCoords element coordinates "click").map fun _ => ()
  else if actionType = "swipe" ∨ actionType = "scroll" then
    .ok ()
  else if actionType = "long_press" then
    (clickCoords element coordinates "long press").map fun _ => ()
  else if actionType = "double_tap" then
    (clickCoords element coordinates "double tap").map fun _ => ()
  else if actionType = "pinch" then
    (pinchTarget element coordinates "pinch").map fun _ => ()
  else if actionType = "zoom" then
    (pinchTarget element coordinates "zoom").map fun _ => ()
  else
    .error ("Unsupported action type: " ++ actionType)

/-- `MobileAgent.executeAction`: runs the gesture inside a `try`/`catch` and
always RETURNS a step — a failed gesture is recorded as `success = false` with
the error message, and no exception escapes. -/
def executeAction (actionType : String) (targetElement : Option UIElementM)
    (coordinates : Option (Int × Int)) : StepM :=
  match dispatchGesture actionType targetElement coordinates with
  | .ok _ =>
    { actionType, targetElementId := targetElement.map (·.elementId), success := true }
  | .error msg =>
    { actionType, targetElementId := targetElement.map (·.elementId),
      success := false, error := some msg }

/-- `MobileAgent.execute`, with the whole decision phase (tier cascade)
abstracted as an `Except`-valued input.  The session guard, the target
re-resolution against `currentState`, the dispatch, and the two recording
paths (normal step / catch-all failed step that rethrows) follow the source. -/
def execute (ag : AgentM) (instruction : String)
    (decision : Except String LLMActionResponseM) : Except String Unit × AgentM :=
  match ag.testResult with
  | none => (.error "Session not started. Call startSession() first.", ag)
  | some tr0 =>
    let tr := { tr0 with task := instruction }
    match decision with
    | .error e =>
      let failedStep : StepM := { actionType := "click", success := false, error := some e }
      (.error e, { ag with testResult := some { tr with steps := tr.steps ++ [failedStep] } })
    | .ok resp =>
      let targetElement :=
        match resp.elementId with
        | some i => ag.currentStateElements.find? fun e => e.elementId = i
        | none => none
      let step := executeAction resp.action targetElement resp.coordinates
      (.ok (),
       { ag with
         testResult := some { tr with steps := tr.steps ++ [step] },
         actionHistory := ag.actionHistory ++ [resp.action ++ " - " ++ resp.reasoning] })

/-- `MobileAgent.startSession`: fresh `TestResult`, empty history, initial
snapshot. -/
def startSession (ag : AgentM) (initialElements : List UIElementM) : AgentM :=
  { ag with
    testResult := some {},
    actionHistory := [],
    currentStateElements := initialElements }

/-- `MobileAgent.stopSession`: precondition check, then fills in the summary
fields and RETURNS the result — `this.testResult` is left in place (durations
are not modelled). -/
def stopSession (ag : AgentM) (status : String) :
    Except String TestResultM × AgentM :=
  match ag.testResult with
  | none => (.error "Session not started. Call startSession() first.", ag)
  | some tr =>
    let tr2 := { tr with success := status = "success" }
    (.ok tr2, { ag with testResult := some tr2 })

/-- `MobileAgent.assert`: appends one `VerificationPoint` and never throws once
the session is open; `outcome` is the verification result, with `.error` for an
exception thrown underneath (snapshot or LLM). -/
def assertCondition (ag : AgentM) (condition : String)
    (snapshot : List UIElementM) (outcome : Except String Bool) :
    Except String Bool × AgentM :=
  match ag.testResult with
  | none => (.error "Session not started. Call startSession() first.", ag)
  | some tr =>
    match outcome with
    | .ok passed =>
      let v : VerificationPointM :=
        { name := condition, status := if passed then "passed" else "failed",
          actualValue := passed }
      (.ok passed,
       { ag with
         currentStateElements := snapshot,
         testResult := some { tr with verificationResults := tr.verificationResults ++ [v] } })
    | .error e =>
      let v : VerificationPointM :=
        { name := condition, status := "error", actualValue := false,
          errorMessage := some e }
      (.ok false,
       { ag with testResult := some { tr with verificationResults := tr.verificationResults ++ [v] } })

/-! ### MobileAgent: UI-settle wait and verification-as-wait (`part_006`) -/

/-- Number of loop iterations that start strictly before the deadline when the
i-th iteration starts at time `i * pollMs`: the least `n` with
`n * pollMs ≥ timeoutMs`. -/
def numPolls (timeoutMs pollMs : Nat) : Nat :=
  (timeoutMs + pollMs - 1) / pollMs

/-- The body of `MobileAgent.waitForUiSettle` over the finite list of samples
that fit in the timebox: returns `some n` when the loop declares the UI
settled after consuming `n` samples (counting from `n₀`), `none` when the
timebox expires first.  `lastSource` and `stable` mirror the source variables;
in the source a sample equal to `lastSource` increments `stable` and settles
once `stable ≥ stableIterations`, any other sample resets `stable` to 0. -/
def settleRun (stableIterations : Nat) :
    List String → Option String → Nat → Nat → Option Nat
  | [], _, _, _ => none
  | s :: rest, lastSource, stable, n =>
    match lastSource with
    | some l =>
      if s = l then
        if stable + 1 ≥ stableIterations then some (n + 1)
        else settleRun stableIterations rest (some l) (stable + 1) (n + 1)
      else settleRun stableIterations rest (some s) 0 (n + 1)
    | none => settleRun stableIterations rest (some s) 0 (n + 1)

/-- `MobileAgent.waitForUiSettle` with the i-th `getPageSource` result given by
`src i`: the loop runs while `Date.now() < deadline`, so exactly the samples
with index below `numPolls timeoutMs pollMs` are available.  Defaults in the
source: `timeoutMs = 1200`, `stableIterations = 2`, `pollMs = 150`. -/
def waitForUiSettle (src : Nat → String) (timeoutMs pollMs stableIterations : Nat) :
    Option Nat :=
  settleRun stableIterations ((List.range (numPolls timeoutMs pollMs)).map src) none 0 0

/-- `MobileAgent.verifyConditionOneShot`: refreshes `currentState` and returns
the verification outcome; every exception is caught into `false`, and the
recorded `testResult` is not touched. -/
def verifyConditionOneShot (ag : AgentM) (snapshot : List UIElementM)
    (outcome : Bool) : Bool × AgentM :=
  (outcome, { ag with currentStateElements := snapshot })

/-- The polling loop of `MobileAgent.waitForCondition` over the iteration
indices that fit in the timebox. -/
def waitLoop (snapshots : Nat → List UIElementM) (polls : Nat → Bool) :
    List Nat → AgentM → Bool × AgentM
  | [], ag => (false, ag)
  | i :: rest, ag =>
    let r := verifyConditionOneShot ag (snapshots i) (polls i)
    if r.1 then (true, r.2) else waitLoop snapshots polls rest r.2

/-- `MobileAgent.waitForCondition` (defaults `timeoutMs = 5000`,
`pollMs = 800`): polls the one-shot verification until it passes or the
deadline elapses; the i-th poll runs iff `i * pollMs < timeoutMs`. -/
def waitForCondition (snapshots : Nat → List UIElementM) (polls : Nat → Bool)
    (timeoutMs pollMs : Nat) (ag : AgentM) : Bool × AgentM :=
  waitLoop snapshots polls (List.range (numPolls timeoutMs pollMs)) ag

/-! ### Concrete inputs used by the claim-level evaluations -/

/-- Tier-2 environment with an EMPTY tag mapping (zero clickable elements) and
a well-formed tier-2 LLM answer naming tag 1; tiers 3 and 4 are fully able to
answer, so any fall-through would be visible. -/
def c1Env : CascadeEnv :=
  { tier2Snapshot := .ok { screenshotBase64 := some "img", tagMapping := some [] },
    tier2Llm := .ok (some { action := some "click", tag_id := some 1, confidence := some (9/10) }),
    tier3Snapshot := .ok { screenshotBase64 := some "img", gridMap := some [("A1", (10, 20))] },
    tier3Llm := .ok (some { action := some "click", grid_position := some "A1", confidence := some (9/10) }),
    tier4Llm := .ok (some { action := some "click", element := some "Login",
                            location := some (1/2, 17/20), confidence := some (3/4) }),
    screenSize := (390, 844),
    minimumConfidence := none,
    pureVisionEnabled := true }

/-- Same environment but with a nonempty tag mapping and an LLM `tag_id` (2)
absent from it. -/
def c1EnvB : CascadeEnv :=
  { c1Env with
    tier2Snapshot := .ok
      { screenshotBase64 := some "img",
        tagMapping := some [(1, { elementId := "7", bounds := some ⟨100, 200, 300, 260⟩,
                                  clickable := true })] },
    tier2Llm := .ok (some { action := some "click", tag_id := some 2, confidence := some (9/10) }) }

/-- An agent with an open, empty session. -/
def c2Agent : AgentM := { testResult := some {} }

/-- A click decision carrying neither coordinates nor an element id. -/
def c2Decision : LLMActionResponseM :=
  { action := "click", reasoning := "tap it", method := .vision_tagging }

/-- A benign click decision with explicit coordinates (always dispatchable). -/
def c4Decision : LLMActionResponseM :=
  { action := "click", coordinates := some (5, 5), method := .hierarchy }

/-- A parsed tier-1 response whose LLM-supplied confidence is 2 (outside [0,1]). -/
def c7Parsed : ParsedActionM := { action := some "click", confidence := some 2 }

/-- A parsed tier-4 response with a valid location and confidence 0.3. -/
def c3Parsed : ParsedVisionM :=
  { action := some "click", element := some "Login",
    location := some (1/2, 1/2), confidence := some (3/10) }

/-! ### Claim C7 — tier-1 confidence precedence -/

/-- Claim C7, counterexample: tier-1 parsing propagates the LLM-supplied
confidence verbatim, with no range enforcement, so a successfully parsed
response carrying `confidence = 2` yields a decision whose confidence is 2,
outside [0, 1]. -/
theorem c7_counterexample :
    (generateAction (some c7Parsed)).confidence = some 2 ∧
    ¬((0 : ℚ) ≤ 2 ∧ (2 : ℚ) ≤ 1) := by
  constructor
  · rfl
  · intro h
    exact absurd h.2 (by norm_num)

/-- Claim C7 (amended): when the tier-1 parse succeeds, the decision carries
exactly the LLM-supplied confidence (undefined when omitted, with no range
enforcement, so it lies in [0,1] only when the supplied value does); when the
parse fails, the decision has action `"error"` and confidence 0. -/
theorem c7_confidence_propagation :
    (∀ p : ParsedActionM,
       (generateAction (some p)).confidence = p.confidence ∧
       (generateAction (some p)).method = VisionMethod.hierarchy) ∧
    (generateAction none).action = "error" ∧
    (generateAction none).confidence = some 0 := by
  refine ⟨fun p => ⟨rfl, rfl⟩, rfl, rfl⟩

/-! ### Claim C8 — element-type inference order -/

/-- Claim C8, counterexample: a class name whose lowercase form contains both
`"recyclerview"` and `"listview"` is inferred as `list_view`, not
`recycler_view`: the source checks `listview` BEFORE `recyclerview`. -/
theorem c8_counterexample :
    inferElementType "RecyclerViewListView" = UIElementType.list_view ∧
    includesSub (lowerChars "RecyclerViewListView") "recyclerview" = true ∧
    includesSub (lowerChars "RecyclerViewListView") "listview" = true ∧
    UIElementType.list_view ≠ UIElementType.recycler_view := by
  refine ⟨by decide, by decide, by decide, by decide⟩

/-- Claim C8 (amended): the inference is a case-insensitive substring search in
the order button → edit_text → text_view → image_view → list_view →
recycler_view → webview → dialog → toggle → spinner → unknown; in particular a
class name containing both `"recyclerview"` and `"listview"` (and none of the
earlier patterns) infers `list_view`. -/
theorem c8_inference_order (cn : String)
    (hlist : includesSub (lowerChars cn) "listview" = true)
    (hrec : includesSub (lowerChars cn) "recyclerview" = true)
    (hb : includesSub (lowerChars cn) "button" = false)
    (he1 : includesSub (lowerChars cn) "edittext" = false)
    (he2 : includesSub (lowerChars cn) "edit" = false)
    (ht1 : includesSub (lowerChars cn) "textview" = false)
    (ht2 : includesSub (lowerChars cn) "text" = false)
    (hi1 : includesSub (lowerChars cn) "imageview" = false)
    (hi2 : includesSub (lowerChars cn) "image" = false) :
    inferElementType cn = UIElementType.list_view := by
  have hr := hrec
  simp [inferElementType, hlist, hb, he1, he2, ht1, ht2, hi1, hi2]

/-- Claim C8 witness: the amended order theorem applied to the concrete class
name `"RecyclerViewListView"`. -/
theorem c8_witness :
    includesSub (lowerChars "RecyclerViewListView") "listview" = true ∧
    inferElementType "RecyclerViewListView" = UIElementType.list_view := by
  refine ⟨by decide, c8_inference_order "RecyclerViewListView" (by decide) (by decide)
    (by decide) (by decide) (by decide) (by decide) (by decide) (by decide) (by decide)⟩

/-! ### Claim C2 — dispatcher failure on a target-less click -/

/-- Claim C2, counterexample: a click decision with neither coordinates nor a
resolvable element records a FAILED step with the error
`"No element or coordinates to click"`, but `execute` returns normally — the
exception is caught inside `executeAction` and does NOT propagate. -/
theorem c2_counterexample :
    (execute c2Agent "tap the login button" (.ok c2Decision)).1 = .ok () ∧
    ((execute c2Agent "tap the login button" (.ok c2Decision)).2.testResult.map
        TestResultM.steps) =
      some [{ actionType := "click", success := false,
              error := some "No element or coordinates to click" }] := by
  refine ⟨by decide, by decide⟩

/-- Claim C2 (amended): for every execute whose decided gesture is a click with
neither a target element nor explicit coordinates, the step is recorded with
`success = false` and error `"No element or coordinates to click"`; the
exception is caught inside the dispatcher, so `execute` returns normally
rather than propagating it. -/
theorem c2_no_element_or_coordinates (ag : AgentM) (tr : TestResultM)
    (instr : String) (d : LLMActionResponseM)
    (hs : ag.testResult = some tr) (ha : d.action = "click")
    (hc : d.coordinates = none) (he : d.elementId = none) :
    (execute ag instr (.ok d)).1 = .ok () ∧
    ((execute ag instr (.ok d)).2.testResult.map TestResultM.steps) =
      some (tr.steps ++
        [{ actionType := "click", targetElementId := none, success := false,
           error := some "No element or coordinates to click" }]) := by
  simp [execute, hs, ha, hc, he, executeAction, dispatchGesture, clickCoords, Except.map]

/-- Claim C2 witness: the amended theorem applied to a concrete agent and
decision. -/
theorem c2_witness :
    c2Agent.testResult = some {} ∧ c2Decision.action = "click" ∧
    (execute c2Agent "tap" (.ok c2Decision)).1 = .ok () := by
  refine ⟨by decide, by decide,
    (c2_no_element_or_coordinates c2Agent {} "tap" c2Decision rfl rfl rfl rfl).1⟩

/-! ### Claim C3 — the tier-4 minimum-confidence gate -/

/-- Claim C3, counterexample: a tier-4 decision with confidence exactly 0 (the
parse-failure decision) is NOT rejected by the gate — the truthiness guard
`if (confidence && confidence < minConfidence)` skips the comparison for 0 —
so the cascade is not terminated even though 0 is strictly below the default
minimum of 0.5. -/
theorem c3_counterexample :
    tryPureVisionApproach none (390, 844) (.ok none) =
      .ok (errorDecision .pure_vision "Failed to parse pure vision response") ∧
    (errorDecision .pure_vision "Failed to parse pure vision response").confidence = some 0 ∧
    jsNumOr none (1/2) = (1/2 : ℚ) ∧ (0 : ℚ) < 1/2 := by
  refine ⟨by decide, by decide, rfl, by norm_num⟩

/-- Claim C3 (amended): a tier-4 decision whose confidence is NONZERO and
strictly below the configured `minimumConfidence` (default 0.5) makes
`tryPureVisionApproach` raise, terminating the cascade; a confidence of
exactly 0 skips the gate and the decision is returned instead. -/
theorem c3_low_confidence_raises (minC : Option ℚ) (size : Nat × Nat)
    (p : ParsedVisionM) (c : ℚ)
    (hc : (generateActionWithPureVision size (some p)).confidence = some c)
    (h0 : c ≠ 0) (hlt : c < jsNumOr minC (1/2)) :
    tryPureVisionApproach minC size (.ok (some p)) =
      .error "Pure vision confidence too low" ∧
    (∀ parsed : Option ParsedVisionM,
      (generateActionWithPureVision size parsed).confidence = some 0 →
      tryPureVisionApproach minC size (.ok parsed) =
        .ok (generateActionWithPureVision size parsed)) := by
  constructor
  · have h1 : tryPureVisionApproach minC size (.ok (some p)) =
        (if c ≠ 0 ∧ c < jsNumOr minC (1/2) then
           .error "Pure vision confidence too low"
         else .ok (generateActionWithPureVision size (some p))) := by
      simp only [tryPureVisionApproach, hc]
    rw [h1, if_pos ⟨h0, hlt⟩]
  · intro parsed hzero
    have h1 : tryPureVisionApproach minC size (.ok parsed) =
        (if (0 : ℚ) ≠ 0 ∧ (0 : ℚ) < jsNumOr minC (1/2) then
           .error "Pure vision confidence too low"
         else .ok (generateActionWithPureVision size parsed)) := by
      simp only [tryPureVisionApproach, hzero]
    rw [h1, if_neg]
    rintro ⟨hbad, _⟩
    exact hbad rfl

/-- Claim C3 witness: the amended theorem applied at confidence 0.3 with the
default minimum 0.5. -/
theorem c3_witness :
    (generateActionWithPureVision (390, 844) (some c3Parsed)).confidence = some (3/10) ∧
    (3/10 : ℚ) ≠ 0 ∧ (3/10 : ℚ) < jsNumOr none (1/2) ∧
    tryPureVisionApproach none (390, 844) (.ok (some c3Parsed)) =
      .error "Pure vision confidence too low" := by
  have hc : (generateActionWithPureVision (390, 844) (some c3Parsed)).confidence =
      some (3/10) := by
    norm_num [generateActionWithPureVision, c3Parsed, jsNumOr]
  have h0 : (3/10 : ℚ) ≠ 0 := by norm_num
  have hlt : (3/10 : ℚ) < jsNumOr none (1/2) := by norm_num [jsNumOr]
  exact ⟨hc, h0, hlt,
    (c3_low_confidence_raises none (390, 844) c3Parsed (3/10) hc h0 hlt).1⟩

/-! ### Claim C4 — sessions are not sealed by stopSession -/

/-- Claim C4, counterexample: after `stopSession` returns, the same agent
instance accepts a further `execute` AND a further `assert` without any
precondition error, and the sealed session grows a new step (0 steps before,
1 after) and a new verification (0 recorded verifications before, 1 after). -/
theorem c4_counterexample :
    (stopSession (startSession {} []) "success").1 = .ok { success := true } ∧
    (execute (stopSession (startSession {} []) "success").2 "again" (.ok c4Decision)).1 =
      .ok () ∧
    ((execute (stopSession (startSession {} []) "success").2 "again"
        (.ok c4Decision)).2.testResult.map fun tr => tr.steps.length) = some 1 ∧
    (assertCondition (stopSession (startSession {} []) "success").2 "home visible" []
        (.ok true)).1 = .ok true ∧
    ((assertCondition (stopSession (startSession {} []) "success").2 "home visible" []
        (.ok true)).2.testResult.map fun tr => tr.verificationResults.length) = some 1 := by
  refine ⟨by decide, by decide, by decide, by decide, by decide⟩

/-- Claim C4 (amended): operations invoked before `startSession` fail with the
precondition error, but `stopSession` does NOT seal the session: `testResult`
remains set, so a subsequent `execute` succeeds and appends a step, a
subsequent `assert` succeeds (for both verification outcomes) and appends a
verification, and a subsequent `stopSession` succeeds again. -/
theorem c4_session_not_sealed (ag : AgentM) (tr : TestResultM) (status : String)
    (hs : ag.testResult = some tr) :
    (stopSession ag status).1 = .ok { tr with success := status = "success" } ∧
    ((stopSession ag status).2.testResult).isSome = true ∧
    (∀ instr d, (execute (stopSession ag status).2 instr (.ok d)).1 = .ok () ∧
       ((execute (stopSession ag status).2 instr (.ok d)).2.testResult.map
           fun t => t.steps.length) = some (tr.steps.length + 1)) ∧
    (∀ cond snap passed,
       (assertCondition (stopSession ag status).2 cond snap (.ok passed)).1 =
         .ok passed ∧
       ((assertCondition (stopSession ag status).2 cond snap (.ok passed)).2.testResult.map
           fun t => t.verificationResults.length) =
         some (tr.verificationResults.length + 1)) ∧
    (∀ cond snap e,
       (assertCondition (stopSession ag status).2 cond snap (.error e)).1 = .ok false ∧
       ((assertCondition (stopSession ag status).2 cond snap (.error e)).2.testResult.map
           fun t => t.verificationResults.length) =
         some (tr.verificationResults.length + 1)) ∧
    (∀ status2, (stopSession (stopSession ag status).2 status2).1 =
       .ok { tr with success := status2 = "success" }) ∧
    (∀ (ag2 : AgentM) instr d, ag2.testResult = none →
       (execute ag2 instr (.ok d)).1 =
         .error "Session not started. Call startSession() first.") ∧
    (∀ (ag2 : AgentM) cond snap outcome, ag2.testResult = none →
       (assertCondition ag2 cond snap outcome).1 =
         .error "Session not started. Call startSession() first.") := by
  refine ⟨by simp [stopSession, hs], by simp [stopSession, hs], ?_, ?_, ?_, ?_, ?_, ?_⟩
  · intro instr d
    constructor
    · simp [stopSession, hs, execute]
    · simp [stopSession, hs, execute]
  · intro cond snap passed
    constructor
    · simp [stopSession, hs, assertCondition]
    · simp [stopSession, hs, assertCondition]
  · intro cond snap e
    constructor
    · simp [stopSession, hs, assertCondition]
    · simp [stopSession, hs, assertCondition]
  · intro status2
    simp [stopSession, hs]
  · intro ag2 instr d h2
    simp [execute, h2]
  · intro ag2 cond snap outcome h2
    simp [assertCondition, h2]

/-- Claim C4 witness: the amended theorem applied to an agent with an open
session containing no steps and no verifications. -/
theorem c4_witness :
    (startSession {} []).testResult = some {} ∧
    (stopSession (startSession {} []) "failure").1 = .ok { success := false } ∧
    (assertCondition (stopSession (startSession {} []) "failure").2 "cond" []
        (.ok true)).1 = .ok true := by
  refine ⟨by decide, ?_, ?_⟩
  · have h := (c4_session_not_sealed (startSession {} []) {} "failure" (by decide)).1
    simpa using h
  · have h := ((c4_session_not_sealed (startSession {} []) {} "failure"
      (by decide)).2.2.2.1 "cond" [] true).1
    exact h

/-! ### Claim C1 — tier-2 resolution and parse failures do not reach tier 3 -/

/-- Claim C1 (code bug): with vision fallback active after tier 1, a tier-2
RESOLUTION failure — the tag mapping is empty (`c1Env`) or the tag id is
absent from the mapping (`c1EnvB`) — does NOT fall through to tier 3: the
`catch` inside `generateActionWithVisionTagging` converts the failure into an
`action = "error"` decision that the engine accepts as the tier-2 result
(`usedMethod` stays `vision_tagging`, no grid snapshot or query is attempted),
and the dispatcher then records a failed `Unsupported action type: error`
step.  The same happens on a parse failure (`tier2Llm = .ok none`). -/
theorem c1_tier2_error_decision_accepted :
    cascadeVisionFallback c1Env =
      { result := .ok (errorDecision .vision_tagging
          "Failed to parse vision tagging response"),
        usedMethod := .vision_tagging,
        tier3Attempted := false, tier4Attempted := false } ∧
    cascadeVisionFallback c1EnvB =
      { result := .ok (errorDecision .vision_tagging
          "Failed to parse vision tagging response"),
        usedMethod := .vision_tagging,
        tier3Attempted := false, tier4Attempted := false } ∧
    cascadeVisionFallback { c1Env with tier2Llm := .ok none } =
      { result := .ok (errorDecision .vision_tagging
          "Failed to parse vision tagging response"),
        usedMethod := .vision_tagging,
        tier3Attempted := false, tier4Attempted := false } ∧
    executeAction "error" none none =
      { actionType := "error", success := false,
        error := some "Unsupported action type: error" } := by
  refine ⟨by decide, by decide, by decide, by decide⟩

/-! ### Claim C5 — UI-settle termination -/

/-- Any settled return of the sampling loop consumed at most the samples it
was given (counting from the start index). -/
theorem settleRun_le (si : Nat) :
    ∀ (l : List String) (lastSource : Option String) (stable n m : Nat),
      settleRun si l lastSource stable n = some m → m ≤ n + l.length := by
  intro l
  induction l with
  | nil => intro lastSource stable n m h; simp [settleRun] at h
  | cons s rest ih =>
    intro lastSource stable n m h
    cases lastSource with
    | none =>
      simp only [settleRun] at h
      have := ih (some s) 0 (n + 1) m h
      simp only [List.length_cons]
      omega
    | some l' =>
      simp only [settleRun] at h
      by_cases hsl : s = l'
      · rw [if_pos hsl] at h
        by_cases hst : stable + 1 ≥ si
        · rw [if_pos hst] at h
          have hm : m = n + 1 := by
            have h2 := h
            simp at h2
            omega
          simp only [List.length_cons]
          omega
        · rw [if_neg hst] at h
          have := ih (some l') (stable + 1) (n + 1) m h
          simp only [List.length_cons]
          omega
      · rw [if_neg hsl] at h
        have := ih (some s) 0 (n + 1) m h
        simp only [List.length_cons]
        omega

/-- On a constant source the loop settles after exactly three samples (one to
seed `lastSource`, two to bring the stability counter to 2). -/
theorem settleRun_const (s : String) (k : Nat) :
    settleRun 2 (s :: s :: s :: List.replicate k s) none 0 0 = some 3 := by
  simp [settleRun]

/-- Claim C5, counterexample: with every page-source sample byte-identical and
the default parameters (`stableIterations = 2`), `waitForUiSettle` consumes
THREE samples, not two (`some 3`); and with a budget that admits exactly two
samples — which are byte-identical — it does not declare the UI settled at
all, it times out (`none`). -/
theorem c5_counterexample :
    waitForUiSettle (fun _ => "x") 1200 150 2 = some 3 ∧
    waitForUiSettle (fun _ => "x") 300 150 2 = none ∧
    numPolls 300 150 = 2 := by
  refine ⟨by decide, by decide, by decide⟩

/-- Claim C5 (amended): the wait declares the UI settled when a sample equals
its predecessor for the second consecutive time — three consecutive
byte-identical samples; in particular on an all-identical sample stream it
returns after exactly three samples regardless of the remaining timeout — and
it never consumes more samples than start before the `timeoutMs` deadline
(at most `numPolls timeoutMs pollMs`). -/
theorem c5_settle_three_samples :
    (∀ (s : String) (timeoutMs pollMs : Nat),
       3 ≤ numPolls timeoutMs pollMs →
       waitForUiSettle (fun _ => s) timeoutMs pollMs 2 = some 3) ∧
    (∀ (src : Nat → String) (timeoutMs pollMs stableIterations m : Nat),
       waitForUiSettle src timeoutMs pollMs stableIterations = some m →
       m ≤ numPolls timeoutMs pollMs) := by
  constructor
  · intro s timeoutMs pollMs h3
    obtain ⟨k, hk⟩ : ∃ k, numPolls timeoutMs pollMs = 3 + k :=
      ⟨numPolls timeoutMs pollMs - 3, by omega⟩
    have hmap : (List.range (numPolls timeoutMs pollMs)).map (fun _ => s) =
        List.replicate (numPolls timeoutMs pollMs) s := by
      rw [List.map_const']
      simp
    rw [waitForUiSettle, hmap, hk]
    have : List.replicate (3 + k) s = s :: s :: s :: List.replicate k s := by
      rw [Nat.add_comm]
      rfl
    rw [this]
    exact settleRun_const s k
  · intro src timeoutMs pollMs stableIterations m h
    have := settleRun_le stableIterations
      ((List.range (numPolls timeoutMs pollMs)).map src) none 0 0 m h
    simpa using this

/-- Claim C5 witness: the amended theorem at the default parameters with a
constant source. -/
theorem c5_witness :
    3 ≤ numPolls 1200 150 ∧
    waitForUiSettle (fun _ => "same-source") 1200 150 2 = some 3 := by
  exact ⟨by decide, c5_settle_three_samples.1 "same-source" 1200 150 (by decide)⟩

/-! ### Claim C9 — waitForCondition is one-shot -/

/-- The polling loop never touches the recorded `testResult` (the one-shot
verification only refreshes `currentState`). -/
theorem waitLoop_testResult (snapshots : Nat → List UIElementM) (polls : Nat → Bool) :
    ∀ (l : List Nat) (ag : AgentM),
      ((waitLoop snapshots polls l ag).2).testResult = ag.testResult := by
  intro l
  induction l with
  | nil => intro ag; rfl
  | cons i rest ih =>
    intro ag
    simp only [waitLoop, verifyConditionOneShot]
    by_cases hp : polls i = true
    · simp [hp]
    · simp only [Bool.not_eq_true] at hp
      simp [hp, ih]

/-- The polling loop returns true exactly when one of the polls it was given
passes. -/
theorem waitLoop_true_iff (snapshots : Nat → List UIElementM) (polls : Nat → Bool) :
    ∀ (l : List Nat) (ag : AgentM),
      (waitLoop snapshots polls l ag).1 = true ↔ ∃ i ∈ l, polls i = true := by
  intro l
  induction l with
  | nil => intro ag; simp [waitLoop]
  | cons i rest ih =>
    intro ag
    simp only [waitLoop, verifyConditionOneShot]
    by_cases hp : polls i = true
    · simp [hp]
    · simp only [Bool.not_eq_true] at hp
      simp [hp, ih]

/-- The i-th poll iteration starts before the deadline iff its index is below
`numPolls`. -/
theorem lt_numPolls_iff {pollMs : Nat} (hp : 0 < pollMs) (timeoutMs i : Nat) :
    i < numPolls timeoutMs pollMs ↔ i * pollMs < timeoutMs := by
  unfold numPolls
  rw [Nat.lt_iff_add_one_le, Nat.le_div_iff_mul_le hp]
  have h : (i + 1) * pollMs = i * pollMs + pollMs := by ring
  omega

/-- Claim C9: `waitForCondition` (hence the waiting phase of `executeAndWait`)
is one-shot — the recorded `testResult`, and with it the session's
`verificationResults` list, is unchanged by the call — while the call returns
true iff some poll executed before the deadline passed. -/
theorem c9_wait_for_condition_one_shot (snapshots : Nat → List UIElementM)
    (polls : Nat → Bool) (timeoutMs pollMs : Nat) (ag : AgentM)
    (hp : 0 < pollMs) :
    ((waitForCondition snapshots polls timeoutMs pollMs ag).2).testResult =
      ag.testResult ∧
    ((waitForCondition snapshots polls timeoutMs pollMs ag).1 = true ↔
      ∃ i, i * pollMs < timeoutMs ∧ polls i = true) := by
  constructor
  · exact waitLoop_testResult snapshots polls _ ag
  · rw [waitForCondition, waitLoop_true_iff]
    constructor
    · rintro ⟨i, hmem, hi⟩
      exact ⟨i, (lt_numPolls_iff hp timeoutMs i).mp (List.mem_range.mp hmem), hi⟩
    · rintro ⟨i, hlt, hi⟩
      exact ⟨i, List.mem_range.mpr ((lt_numPolls_iff hp timeoutMs i).mpr hlt), hi⟩

/-- Claim C9 witness: the theorem at the default `waitForCondition` parameters
(5000 ms timeout, 800 ms poll) with a poll that passes on its third run. -/
theorem c9_witness :
    0 < 800 ∧
    (((waitForCondition (fun _ => []) (fun i => i == 2) 5000 800 {}).2).testResult =
       AgentM.testResult {} ∧
     ((waitForCondition (fun _ => []) (fun i => i == 2) 5000 800 {}).1 = true ↔
       ∃ i, i * 800 < 5000 ∧ (i == 2) = true)) := by
  exact ⟨by decide,
    c9_wait_for_condition_one_shot (fun _ => []) (fun i => i == 2) 5000 800 {} (by decide)⟩

/-! ### Claim C10 — zero confidence replaced by tier defaults -/

/-- Claim C10: in tiers 2, 3 and 4, an LLM-supplied confidence of exactly 0 on
an otherwise successfully parsed (and resolved) response is replaced by the
tier default — 0.8, 0.7 and 0.6 respectively — and in tier 4 the resulting
decision passes the default minimum-confidence gate (0.5). -/
theorem c10_zero_confidence_defaults :
    (∀ (st : TaggedStateM) (mapping : List (Nat × UIElementM)) (p : ParsedTagM)
        (el : UIElementM),
       st.tagMapping = some mapping → jsStrTruthy st.screenshotBase64 = true →
       tagLookup mapping p.tag_id = some el → p.confidence = some 0 →
       ∃ d, generateActionWithVisionTagging st (some p) = .ok d ∧
         d.confidence = some (4/5)) ∧
    (∀ (st : GridStateM) (gm : List (String × Int × Int)) (p : ParsedGridM)
        (xy : Int × Int),
       st.gridMap = some gm → jsStrTruthy st.screenshotBase64 = true →
       gridMapLookup gm p.grid_position = some xy → p.confidence = some 0 →
       ∃ d, generateActionWithGridOverlay st (some p) = .ok d ∧
         d.confidence = some (7/10)) ∧
    (∀ (size : Nat × Nat) (p : ParsedVisionM) (loc : ℚ × ℚ),
       p.location = some loc → p.confidence = some 0 →
       (generateActionWithPureVision size (some p)).confidence = some (3/5) ∧
       tryPureVisionApproach none size (.ok (some p)) =
         .ok (generateActionWithPureVision size (some p))) := by
  refine ⟨?_, ?_, ?_⟩
  · intro st mapping p el hm hs hl hc
    obtain ⟨scr, tm⟩ := st
    simp only at hm hs
    subst hm
    have hres : generateActionWithVisionTagging
        { screenshotBase64 := scr, tagMapping := some mapping } (some p) =
        .ok { action := jsStrOr p.action "error",
              elementId := some el.elementId,
              coordinates := el.bounds.map boundsCenter,
              parameters := p.parameters.getD [],
              reasoning := jsStrOr p.reasoning "",
              confidence := some (jsNumOr p.confidence (4/5)),
              method := .vision_tagging,
              tagId := p.tag_id } := by
      simp only [generateActionWithVisionTagging, hs, if_true, hl]
    exact ⟨_, hres, by simp [jsNumOr, hc]⟩
  · intro st gm p xy hm hs hl hc
    obtain ⟨scr, g⟩ := st
    simp only at hm hs
    subst hm
    have hres : generateActionWithGridOverlay
        { screenshotBase64 := scr, gridMap := some gm } (some p) =
        .ok { action := jsStrOr p.action "error",
              coordinates := some xy,
              parameters := p.parameters.getD [],
              reasoning := jsStrOr p.reasoning "",
              confidence := some (jsNumOr p.confidence (7/10)),
              method := .grid_overlay,
              gridPosition := p.grid_position } := by
      simp only [generateActionWithGridOverlay, hs, if_true, hl]
    exact ⟨_, hres, by simp [jsNumOr, hc]⟩
  · intro size p loc hloc hc
    have hconf : (generateActionWithPureVision size (some p)).confidence = some (3/5) := by
      simp [generateActionWithPureVision, hloc, jsNumOr, hc]
    refine ⟨hconf, ?_⟩
    have h1 : tryPureVisionApproach none size (.ok (some p)) =
        (if (3/5 : ℚ) ≠ 0 ∧ (3/5 : ℚ) < jsNumOr none (1/2) then
           .error "Pure vision confidence too low"
         else .ok (generateActionWithPureVision size (some p))) := by
      simp only [tryPureVisionApproach, hconf]
    rw [h1, if_neg]
    rintro ⟨-, hbad⟩
    rw [show jsNumOr none (1/2) = (1/2 : ℚ) from rfl] at hbad
    norm_num at hbad

/-- Claim C10 witness: the three tier conjuncts instantiated at concrete
states, mappings and parsed responses carrying confidence 0. -/
theorem c10_witness :
    (∃ d, generateActionWithVisionTagging
        { screenshotBase64 := some "img",
          tagMapping := some [(1, { elementId := "7", clickable := true,
                                    bounds := some ⟨0, 0, 10, 10⟩ })] }
        (some { action := some "click", tag_id := some 1, confidence := some 0 }) =
        .ok d ∧ d.confidence = some (4/5)) ∧
    (∃ d, generateActionWithGridOverlay
        { screenshotBase64 := some "img", gridMap := some [("A1", (5, 7))] }
        (some { action := some "click", grid_position := some "A1",
                confidence := some 0 }) = .ok d ∧ d.confidence = some (7/10)) ∧
    (generateActionWithPureVision (390, 844)
        (some { action := some "click", location := some (1/2, 1/2),
                confidence := some 0 })).confidence = some (3/5) := by
  refine ⟨?_, ?_, ?_⟩
  · exact c10_zero_confidence_defaults.1
      { screenshotBase64 := some "img",
        tagMapping := some [(1, { elementId := "7", clickable := true,
                                  bounds := some ⟨0, 0, 10, 10⟩ })] }
      [(1, { elementId := "7", clickable := true, bounds := some ⟨0, 0, 10, 10⟩ })]
      { action := some "click", tag_id := some 1, confidence := some 0 }
      { elementId := "7", clickable := true, bounds := some ⟨0, 0, 10, 10⟩ }
      rfl rfl (by decide) rfl
  · exact c10_zero_confidence_defaults.2.1
      { screenshotBase64 := some "img", gridMap := some [("A1", (5, 7))] }
      [("A1", (5, 7))]
      { action := some "click", grid_position := some "A1", confidence := some 0 }
      (5, 7) rfl rfl (by decide) rfl
  · exact (c10_zero_confidence_defaults.2.2 (390, 844)
      { action := some "click", location := some (1/2, 1/2), confidence := some 0 }
      (1/2, 1/2) rfl rfl).1

/-! ### Claim C6 — grid map size, labels and logical bounds -/

/-- Column characters `A..T` are distinct (columns are below 20 for every grid
size in the configurable range 5..20). -/
theorem charCode_inj : ∀ c1 : Nat, c1 < 20 → ∀ c2 : Nat, c2 < 20 →
    Char.ofNat (65 + c1) = Char.ofNat (65 + c2) → c1 = c2 := by decide

/-- Row numerals `1..20` have distinct decimal representations. -/
theorem natReprData_inj : ∀ r1 : Nat, r1 < 20 → ∀ r2 : Nat, r2 < 20 →
    (Nat.repr (r1 + 1)).data = (Nat.repr (r2 + 1)).data → r1 = r2 := by decide

/-- Grid labels are injective in (column, row) for grid sizes up to 20. -/
theorem gridLabel_inj {c1 r1 c2 r2 : Nat} (hc1 : c1 < 20) (hr1 : r1 < 20)
    (hc2 : c2 < 20) (hr2 : r2 < 20) (h : gridLabel c1 r1 = gridLabel c2 r2) :
    c1 = c2 ∧ r1 = r2 := by
  have hdata : (gridLabel c1 r1).data = (gridLabel c2 r2).data := by rw [h]
  simp only [gridLabel, String.data_append, List.singleton_append,
    List.cons.injEq] at hdata
  exact ⟨charCode_inj c1 hc1 c2 hc2 hdata.1, natReprData_inj r1 hr1 r2 hr2 hdata.2⟩

/-- The grid map holds one entry per cell. -/
theorem overlayGridMap_length (N W H aw ah : Nat) :
    (overlayGridMap N W H aw ah).length = N * N := by
  simp [overlayGridMap, List.length_flatMap, Function.comp_def, List.map_const',
    List.sum_replicate, smul_eq_mul]

/-- For grid sizes up to 20, all cell labels are pairwise distinct. -/
theorem gridLabels_nodup (N : Nat) (h20 : N ≤ 20) : (gridLabels N).Nodup := by
  have hpairs : ((List.range N).flatMap fun row =>
      (List.range N).map fun col => (row, col)).Nodup := by
    apply List.nodup_flatMap.mpr
    constructor
    · intro row _
      exact (List.nodup_range N).map fun a b hab => congrArg Prod.snd hab
    · apply (List.pairwise_lt_range N).imp
      intro r1 r2 hlt a ha1 ha2
      obtain ⟨c1, _, heq1⟩ := List.mem_map.mp ha1
      obtain ⟨c2, _, heq2⟩ := List.mem_map.mp ha2
      have : r1 = r2 := by
        have h1 : a.1 = r1 := by rw [← heq1]
        have h2 : a.1 = r2 := by rw [← heq2]
        omega
      omega
  have hmapeq : gridLabels N = List.map (fun p => gridLabel p.2 p.1)
      ((List.range N).flatMap fun row => (List.range N).map fun col => (row, col)) := by
    simp [gridLabels, List.map_flatMap, List.map_map, Function.comp_def]
  rw [hmapeq]
  apply hpairs.map_on
  intro p hp q hq heq
  obtain ⟨r1, hr1, hp2⟩ := List.mem_flatMap.mp hp
  obtain ⟨c1, hc1, rfl⟩ := List.mem_map.mp hp2
  obtain ⟨r2, hr2, hq2⟩ := List.mem_flatMap.mp hq
  obtain ⟨c2, hc2, rfl⟩ := List.mem_map.mp hq2
  have hb1 := List.mem_range.mp hr1
  have hb2 := List.mem_range.mp hc1
  have hb3 := List.mem_range.mp hr2
  have hb4 := List.mem_range.mp hc2
  have := gridLabel_inj (by omega) (by omega) (by omega) (by omega) heq
  simp only [Prod.mk.injEq]
  omega

/-- Each logical cell-center coordinate lies strictly inside the logical
window along its axis, whatever the physical and logical dimensions are. -/
theorem gridCellCoord_bounds (N L D idx : Nat) (hN : 0 < N) (hL : 0 < L)
    (hD : 0 < D) (hidx : idx < N) :
    0 ≤ gridCellCoord N L D idx ∧ gridCellCoord N L D idx < (L : Int) := by
  have hNq : (0 : ℚ) < (N : ℚ) := by exact_mod_cast hN
  have hLq : (0 : ℚ) < (L : ℚ) := by exact_mod_cast hL
  have hDq : (0 : ℚ) < (D : ℚ) := by exact_mod_cast hD
  have hq0 : 0 ≤ ((idx : ℚ) + 1/2) * ((D : ℚ) / (N : ℚ)) := by positivity
  have hidxq : (idx : ℚ) + 1/2 < (N : ℚ) := by
    have h1 : (idx : ℚ) + 1 ≤ (N : ℚ) := by exact_mod_cast hidx
    linarith
  have hqD : ((idx : ℚ) + 1/2) * ((D : ℚ) / (N : ℚ)) < (D : ℚ) := by
    have heq : ((idx : ℚ) + 1/2) * ((D : ℚ) / (N : ℚ)) =
        (((idx : ℚ) + 1/2) / (N : ℚ)) * (D : ℚ) := by ring
    rw [heq]
    have hlt1 : ((idx : ℚ) + 1/2) / (N : ℚ) < 1 := by
      rw [div_lt_one hNq]; exact hidxq
    calc (((idx : ℚ) + 1/2) / (N : ℚ)) * (D : ℚ) < 1 * (D : ℚ) :=
        mul_lt_mul_of_pos_right hlt1 hDq
      _ = (D : ℚ) := one_mul _
  have hac0 : 0 ≤ actualCenter N D idx := by
    rw [actualCenter]
    exact Int.floor_nonneg.mpr hq0
  have hacD : ((actualCenter N D idx : Int) : ℚ) < (D : ℚ) := by
    rw [actualCenter]
    exact lt_of_le_of_lt (Int.floor_le _) hqD
  have hr0 : 0 ≤ ((actualCenter N D idx : Int) : ℚ) / ((D : ℚ) / (L : ℚ)) := by
    apply div_nonneg
    · exact_mod_cast hac0
    · positivity
  have hrL : ((actualCenter N D idx : Int) : ℚ) / ((D : ℚ) / (L : ℚ)) < (L : ℚ) := by
    rw [div_div_eq_mul_div, div_lt_iff₀ hDq]
    calc ((actualCenter N D idx : Int) : ℚ) * (L : ℚ)
        < (D : ℚ) * (L : ℚ) := mul_lt_mul_of_pos_right hacD hLq
      _ = (L : ℚ) * (D : ℚ) := mul_comm _ _
  constructor
  · rw [gridCellCoord, toLogical]
    exact Int.floor_nonneg.mpr hr0
  · rw [gridCellCoord, toLogical]
    have hcast : ((actualCenter N D idx : Int) : ℚ) / ((D : ℚ) / (L : ℚ)) <
        ((L : Int) : ℚ) := by exact_mod_cast hrL
    exact Int.floor_lt.mpr hcast

/-- Claim C6: for every grid size 5 ≤ N ≤ 20, positive logical window (W, H)
and positive physical screenshot dimensions, `overlayGridLines` produces a
grid map with exactly N² entries, pairwise-distinct labels `{column}{row}`
(columns `A..` left to right, rows `1..N` top to bottom), and every entry's
logical center strictly inside `[0, W) × [0, H)`, even when the two axes have
different scale factors. -/
theorem c6_grid_map_properties (N W H aw ah : Nat) (h5 : 5 ≤ N) (h20 : N ≤ 20)
    (hW : 0 < W) (hH : 0 < H) (haw : 0 < aw) (hah : 0 < ah) :
    (overlayGridMap N W H aw ah).length = N * N ∧
    ((overlayGridMap N W H aw ah).map Prod.fst).Nodup ∧
    (∀ row col, row < N → col < N →
      (gridLabel col row, gridCellCoord N W aw col, gridCellCoord N H ah row) ∈
        overlayGridMap N W H aw ah) ∧
    (∀ e ∈ overlayGridMap N W H aw ah,
      0 ≤ e.2.1 ∧ e.2.1 < (W : Int) ∧ 0 ≤ e.2.2 ∧ e.2.2 < (H : Int)) := by
  have hN : 0 < N := by omega
  refine ⟨overlayGridMap_length N W H aw ah, ?_, ?_, ?_⟩
  · have hfst : (overlayGridMap N W H aw ah).map Prod.fst = gridLabels N := by
      simp [overlayGridMap, gridLabels, List.map_flatMap, List.map_map,
        Function.comp_def]
    rw [hfst]
    exact gridLabels_nodup N h20
  · intro row col hrow hcol
    rw [overlayGridMap]
    exact List.mem_flatMap.mpr ⟨row, List.mem_range.mpr hrow,
      List.mem_map.mpr ⟨col, List.mem_range.mpr hcol, rfl⟩⟩
  · intro e he
    rw [overlayGridMap] at he
    obtain ⟨row, hrow, he2⟩ := List.mem_flatMap.mp he
    obtain ⟨col, hcol, rfl⟩ := List.mem_map.mp he2
    have hxb := gridCellCoord_bounds N W aw col hN hW haw (List.mem_range.mp hcol)
    have hyb := gridCellCoord_bounds N H ah row hN hH hah (List.mem_range.mp hrow)
    exact ⟨hxb.1, hxb.2, hyb.1, hyb.2⟩

/-- Claim C6 witness: the grid theorem at the S3 scenario of the spec — grid
size 10, logical window 390 × 844, physical screenshot 1284 × 2778. -/
theorem c6_witness :
    (5 ≤ 10 ∧ 10 ≤ 20 ∧ 0 < 390 ∧ 0 < 844 ∧ 0 < 1284 ∧ 0 < 2778) ∧
    (overlayGridMap 10 390 844 1284 2778).length = 10 * 10 := by
  exact ⟨⟨by decide, by decide, by decide, by decide, by decide, by decide⟩,
    (c6_grid_map_properties 10 390 844 1284 2778 (by decide) (by decide)
      (by decide) (by decide) (by decide) (by decide)).1⟩
